import Mathlib

/-!
Shallow embedding of the expense-management service
(`app/utils/csv_validator.py` and `app/routers/expenses.py`),
together with proofs settling the specification's claims about it.

String manipulation is modelled over `List Char` with structural
recursion so that every definition evaluates inside the kernel.
-/

deriving instance DecidableEq for Except

namespace ExpenseApp

/-- Validation failures of `validate_csv` in `app/utils/csv_validator.py`,
one constructor per `HTTPException` branch, plus the spec taxonomy's
`OversizedInput` (§4.1), so that the question whether the validator ever
produces it can be stated. -/
inductive CsvError where
  | emptyInput
  | invalidExtension
  | decodeError
  | noDataRows
  | duplicateHeader
  | columnCountMismatch (line : Nat)
  | oversizedInput
  deriving DecidableEq, Repr

/-- Split a character list at every occurrence of `c` (Python `str.split`):
the result always has at least one group, and `n` separators give `n + 1`
groups. -/
def splitOnChar (c : Char) : List Char → List (List Char)
  | [] => [[]]
  | a :: as =>
    let r := splitOnChar c as
    if a = c then
      [] :: r
    else
      match r with
      | [] => [[a]]
      | g :: gs => (a :: g) :: gs

/-- One CSV record per line; a blank line yields a record with no fields,
any other line is comma-delimited (the parsing primitive `csv.reader`
restricted to unquoted input, which is all the claims exercise). -/
def parseLine (l : List Char) : List String :=
  match l with
  | [] => []
  | _ => (splitOnChar ',' l).map String.mk

/-- The records `csv.reader(io.StringIO(text))` yields: line-by-line
iteration of the text, where a trailing newline does not produce an extra
empty record. -/
def csvRecords (text : String) : List (List String) :=
  let ls := splitOnChar '\n' text.data
  let ls := if ls.getLast? = some [] then ls.dropLast else ls
  ls.map parseLine

/-- `len(headers) != len(set(headers))`: whether any column name repeats. -/
def hasDuplicate : List String → Bool
  | [] => false
  | h :: t => t.contains h || hasDuplicate t

/-- `for i, row in enumerate(data_rows, start=2)`: the enumeration index of
the first record whose field count differs from the header's, counting
from `start` (the source calls it with `start = 2`). -/
def firstMismatch (hlen : Nat) : Nat → List (List String) → Option Nat
  | _, [] => none
  | i, r :: rs => if r.length = hlen then firstMismatch hlen (i + 1) rs else some i

/-- Python `str.endswith(suffix)`. -/
def pyEndsWith (suffix s : String) : Bool :=
  List.isSuffixOf suffix.data s.data

/-- UTF-8 byte length of the decoded text: the byte count the validator sees
as `len(raw_bytes)` (byte-order mark aside). -/
def utf8Len (s : String) : Nat :=
  (s.data.map Char.utf8Size).sum

/-- `validate_csv` from `app/utils/csv_validator.py`, acting on the decoded
text (`raw_bytes.decode("utf-8-sig")` is modelled as the identity on
decodable input with the byte-order mark already stripped).  `filename`
is `some name` in the `UploadFile` branch; it is `none` in the `BytesIO`
branch, where the object has no `filename` attribute and the extension
check is skipped. -/
def validate_csv (filename : Option String) (text : String) :
    Except CsvError (List String × List (List String)) :=
  if text.data.isEmpty then .error .emptyInput
  else if (match filename with
           | some n => !pyEndsWith ".csv" n
           | none => false) then .error .invalidExtension
  else
    match csvRecords text with
    | [] => .error .noDataRows
    | [_] => .error .noDataRows
    | headers :: data_rows =>
      if hasDuplicate headers then .error .duplicateHeader
      else
        match firstMismatch headers.length 2 data_rows with
        | some i => .error (.columnCountMismatch i)
        | none => .ok (headers, data_rows)

/-! ## Filter-predicate builder (`build_filter_conditions`) -/

/-- A value bound as a query parameter (psycopg2 sends these separately from
the SQL text): a string, a Python float (modelled as a rational), or an
integer such as `dataset_id`. -/
inductive SqlParam where
  | str (s : String)
  | num (q : Rat)
  | nat (n : Nat)
  deriving DecidableEq, Repr

/-- How the builder can fail: `invalidOperator` is the raised
`HTTPException(400)`; `valueError` is an uncaught `ValueError` escaping
from `float()` or from unpacking `min_v, max_v`. -/
inductive FilterError where
  | invalidOperator (op : String)
  | valueError
  deriving DecidableEq, Repr

/-- Python `str.strip()`: drop leading and trailing whitespace. -/
def pyStrip (s : String) : String :=
  String.mk (((s.data.dropWhile Char.isWhitespace).reverse.dropWhile
    Char.isWhitespace).reverse)

/-- Python `str.lower()` (the operator names compared here are ASCII). -/
def pyLower (s : String) : String :=
  String.mk (s.data.map Char.toLower)

/-- Python `str.split(sep)` for a one-character separator. -/
def pySplit (sep : Char) (s : String) : List String :=
  (splitOnChar sep s.data).map String.mk

/-- `[v.strip() for v in val.split(",") if v.strip()]`. -/
def orVals (val : String) : List String :=
  ((pySplit ',' val).map pyStrip).filter (fun v => !v.data.isEmpty)

/-- The one string-filter template of the source. -/
def ilikeT : String := "row_data ->> %s ILIKE %s"

/-- `"(" + " OR ".join(conds) + ")"` where `conds` is `k` copies of the
ILIKE template. -/
def strCond (k : Nat) : String :=
  "(" ++ String.intercalate " OR " (List.replicate k ilikeT) ++ ")"

/-- Numeric-filter templates of the source. -/
def numBetweenT : String := "(CAST(row_data ->> %s AS NUMERIC) BETWEEN %s AND %s)"

/-- Numeric comparison template with the whitelisted operator symbol
interpolated (the only interpolation the source performs). -/
def numCmpT (sym : String) : String :=
  "(CAST(row_data ->> %s AS NUMERIC) " ++ sym ++ " %s)"

/-- Date-filter templates of the source. -/
def dateBetweenT : String := "(CAST(row_data ->> %s AS DATE) BETWEEN %s AND %s)"

/-- Date lower-bound template. -/
def dateGeT : String := "(CAST(row_data ->> %s AS DATE) >= %s)"

/-- Date upper-bound template. -/
def dateLeT : String := "(CAST(row_data ->> %s AS DATE) <= %s)"

/-- The string group: `for col, val in zip(filter_col, filter_val)`, emitting
one parenthesized OR of ILIKE atoms per pair whose alternative list is
non-empty, with `col` and `"%" + v + "%"` appended to the parameters. -/
def stringGroup : List String → List String → List String × List SqlParam
  | col :: cs, val :: vs =>
    let rest := stringGroup cs vs
    let ovs := orVals val
    if ovs.isEmpty then rest
    else
      (strCond ovs.length :: rest.1,
       ((ovs.map (fun v => [SqlParam.str col, SqlParam.str ("%" ++ v ++ "%")])).flatten)
         ++ rest.2)
  | _, _ => ([], [])

/-- Whether every character is an ASCII digit and the list is non-empty. -/
def allDigits (l : List Char) : Bool :=
  !l.isEmpty && l.all Char.isDigit

/-- Numeric value of a digit list. -/
def natOfDigits (l : List Char) : Nat :=
  l.foldl (fun acc c => 10 * acc + (c.toNat - 48)) 0

/-- Modelled from Python `float()` restricted to plain decimal numerals
(optional sign, digits, optional fractional part); the exponent and
special forms the claims never exercise are omitted.  `none` models the
raised `ValueError`. -/
def pyFloat? (s : String) : Option Rat :=
  let t := (s.data.dropWhile Char.isWhitespace).reverse.dropWhile Char.isWhitespace
    |>.reverse
  let (sign, t) : Rat × List Char :=
    match t with
    | '-' :: r => (-1, r)
    | '+' :: r => (1, r)
    | _ => (1, t)
  match splitOnChar '.' t with
  | [a] => if allDigits a then some (sign * natOfDigits a) else none
  | [a, b] =>
    if (!a.isEmpty || !b.isEmpty) && a.all Char.isDigit && b.all Char.isDigit then
      some (sign * ((natOfDigits a : Rat) + (natOfDigits b : Rat) / (10 ^ b.length)))
    else none
  | _ => none

/-- `min_v, max_v = map(float, val.split(","))`: exactly two decimal fields
or a `ValueError` (`none`). -/
def betweenBounds (val : String) : Option (Rat × Rat) :=
  match (pySplit ',' val).map pyFloat? with
  | [some a, some b] => some (a, b)
  | _ => none

/-- The source's operator whitelist `{"gt": ">", ...}`, looked up on the
lowercased operator. -/
def opsMap (op : String) : Option String :=
  if op = "gt" then some ">"
  else if op = "lt" then some "<"
  else if op = "ge" then some ">="
  else if op = "le" then some "<="
  else if op = "eq" then some "="
  else none

/-- The numeric group: `for col, op, val in zip(num_col, num_op, num_val)`.
A `between` operator parses `val` as two floats (uncaught `ValueError` on
anything else); any other operator must be in the whitelist
(`HTTPException(400)` otherwise) and `val` must parse as one float. -/
def numericGroup : List String → List String → List String →
    Except FilterError (List String × List SqlParam)
  | col :: cs, op :: os, val :: vs =>
    if pyLower op = "between" then
      match betweenBounds val with
      | none => .error .valueError
      | some (lo, hi) =>
        match numericGroup cs os vs with
        | .error e => .error e
        | .ok (rc, rp) =>
          .ok (numBetweenT :: rc, .str col :: .num lo :: .num hi :: rp)
    else
      match opsMap (pyLower op) with
      | none => .error (.invalidOperator op)
      | some sym =>
        match pyFloat? val with
        | none => .error .valueError
        | some q =>
          match numericGroup cs os vs with
          | .error e => .error e
          | .ok (rc, rp) => .ok (numCmpT sym :: rc, .str col :: .num q :: rp)
  | _, _, _ => .ok ([], [])

/-- Python truthiness of a date bound taken from the padded lists: present
and non-empty. -/
def tv : Option String → Option String
  | some s => if s.data.isEmpty then none else some s
  | none => none

/-- The date group: `for col, start, end in zip(date_col, date_from, date_to)`
over the `None`-padded bound lists; both bounds give an inclusive range,
one bound gives the matching one-sided clause, neither gives nothing. -/
def dateGroup : List String → List (Option String) → List (Option String) →
    List String × List SqlParam
  | col :: cs, f :: fs, t :: ts =>
    let rest := dateGroup cs fs ts
    match tv f, tv t with
    | some s, some e => (dateBetweenT :: rest.1, .str col :: .str s :: .str e :: rest.2)
    | some s, none => (dateGeT :: rest.1, .str col :: .str s :: rest.2)
    | none, some e => (dateLeT :: rest.1, .str col :: .str e :: rest.2)
    | none, none => rest
  | _, _, _ => ([], [])

/-- Python truthiness of an optional list parameter (`None` and `[]` are
falsy). -/
def truthyL : Option (List String) → Bool
  | none => false
  | some l => !l.isEmpty

/-- `xs or []`. -/
def getL (o : Option (List String)) : List String := o.getD []

/-- `(xs or []) + [None] * (max_len - len(xs or []))`. -/
def padNone (l : List String) (n : Nat) : List (Option String) :=
  l.map some ++ List.replicate (n - l.length) none

/-- `build_filter_conditions` from `app/routers/expenses.py`: assemble the
three filter groups into a WHERE/AND clause plus the bound-parameter
list.  An `Except.error` models an exception escaping the function. -/
def build_filter_conditions
    (filter_col filter_val num_col num_op num_val
      date_col date_from date_to : Option (List String))
    (include_dataset_id : Bool) :
    Except FilterError (String × List SqlParam) :=
  let sg := if truthyL filter_col && truthyL filter_val then
              stringGroup (getL filter_col) (getL filter_val)
            else ([], [])
  match (if truthyL num_col && truthyL num_op && truthyL num_val then
           numericGroup (getL num_col) (getL num_op) (getL num_val)
         else .ok ([], [])) with
  | .error e => .error e
  | .ok ng =>
    let dg := if truthyL date_col then
                let n := (getL date_col).length
                dateGroup (getL date_col) (padNone (getL date_from) n)
                  (padNone (getL date_to) n)
              else ([], [])
    let conds := sg.1 ++ ng.1 ++ dg.1
    let ps := sg.2 ++ ng.2 ++ dg.2
    let wc := String.intercalate " AND " conds
    let wc := if wc.data.isEmpty then wc
              else (if include_dataset_id then "AND " else "WHERE ") ++ wc
    .ok (wc, ps)

/-! ## The value-free shape of a builder input (injection safety) -/

/-- The whitelisted comparison operators. -/
inductive CmpOp where
  | gt | lt | ge | le | eq
  deriving DecidableEq, Repr

/-- The SQL symbol of a whitelisted operator (the values of the source's
`ops` dictionary). -/
def cmpSym : CmpOp → String
  | .gt => ">"
  | .lt => "<"
  | .ge => ">="
  | .le => "<="
  | .eq => "="

/-- The source's `ops` dictionary keyed into the operator enumeration. -/
def opsOf (op : String) : Option CmpOp :=
  if op = "gt" then some .gt
  else if op = "lt" then some .lt
  else if op = "ge" then some .ge
  else if op = "le" then some .le
  else if op = "eq" then some .eq
  else none

/-- Which numeric clause a (column, operator, value) triple selects. -/
inductive NumSel where
  | between
  | cmp (o : CmpOp)
  deriving DecidableEq, Repr

/-- Which date clause a (column, from, to) triple selects; triples emitting
no clause are dropped. -/
inductive DateSel where
  | both | fromOnly | toOnly
  deriving DecidableEq, Repr

/-- The value-free shape of a builder input: everything the clause text may
depend on.  No field can hold user-supplied text. -/
structure FilterShape where
  strCounts : List Nat
  numSels : List NumSel
  dateSels : List DateSel
  withDatasetId : Bool
  deriving DecidableEq, Repr

/-- Per string-group pair, the number of OR alternatives, pairs with none
dropped (mirroring the `if conds:` guard). -/
def strShape : List String → List String → List Nat
  | _ :: cs, v :: vs =>
    let k := (orVals v).length
    if k = 0 then strShape cs vs else k :: strShape cs vs
  | _, _ => []

/-- Per numeric triple, the selected clause kind (the fallback branch is
never reached when the builder succeeds). -/
def numShape : List String → List String → List String → List NumSel
  | _ :: cs, op :: os, _ :: vs =>
    (if pyLower op = "between" then NumSel.between
     else
       match opsOf (pyLower op) with
       | some o => NumSel.cmp o
       | none => NumSel.between) :: numShape cs os vs
  | _, _, _ => []

/-- Per date triple, the selected clause kind. -/
def dateShape : List String → List (Option String) → List (Option String) →
    List DateSel
  | _ :: cs, f :: fs, t :: ts =>
    let rest := dateShape cs fs ts
    match tv f, tv t with
    | some _, some _ => .both :: rest
    | some _, none => .fromOnly :: rest
    | none, some _ => .toOnly :: rest
    | none, none => rest
  | _, _, _ => []

/-- The template a numeric selection renders to. -/
def renderNumSel : NumSel → String
  | .between => numBetweenT
  | .cmp o => numCmpT (cmpSym o)

/-- The template a date selection renders to. -/
def renderDateSel : DateSel → String
  | .both => dateBetweenT
  | .fromOnly => dateGeT
  | .toOnly => dateLeT

/-- The condition fragments a shape determines. -/
def renderConds (sh : FilterShape) : List String :=
  sh.strCounts.map strCond ++ sh.numSels.map renderNumSel
    ++ sh.dateSels.map renderDateSel

/-- The full clause a shape determines. -/
def renderShape (sh : FilterShape) : String :=
  let wc := String.intercalate " AND " (renderConds sh)
  if wc.data.isEmpty then wc
  else (if sh.withDatasetId then "AND " else "WHERE ") ++ wc

/-- The shape of a builder input, mirroring the builder's own guards. -/
def shapeOf
    (filter_col filter_val num_col num_op num_val
      date_col date_from date_to : Option (List String))
    (include_dataset_id : Bool) : FilterShape where
  strCounts := if truthyL filter_col && truthyL filter_val then
                 strShape (getL filter_col) (getL filter_val) else []
  numSels := if truthyL num_col && truthyL num_op && truthyL num_val then
               numShape (getL num_col) (getL num_op) (getL num_val) else []
  dateSels := if truthyL date_col then
                let n := (getL date_col).length
                dateShape (getL date_col) (padNone (getL date_from) n)
                  (padNone (getL date_to) n)
              else []
  withDatasetId := include_dataset_id

/-- Fragment membership in the fixed template family: an OR of copies of the
ILIKE atom, a numeric BETWEEN, a numeric comparison with a whitelisted
operator, or one of the three date clauses. -/
def TemplateFrag (s : String) : Prop :=
  (∃ k, 0 < k ∧ s = strCond k) ∨ s = numBetweenT
    ∨ (∃ o, s = numCmpT (cmpSym o)) ∨ s = dateBetweenT ∨ s = dateGeT ∨ s = dateLeT

/-! ## Dataset/row store and the upload pipeline -/

/-- One record of `expense_datasets` (the columns the router writes). -/
structure Dataset where
  id : Nat
  file_name : String
  row_count : Nat
  uploader : String
  original_path : String
  deriving DecidableEq, Repr

/-- One record of `expense_rows`: the payload is the ordered column-to-value
mapping serialized by the upload. -/
structure ExpenseRow where
  id : Nat
  dataset_id : Nat
  row_data : List (String × String)
  deriving DecidableEq, Repr

/-- The relational store: the two tables plus the sequences feeding their
surrogate ids. -/
structure DB where
  datasets : List Dataset
  expense_rows : List ExpenseRow
  next_dataset_id : Nat
  next_row_id : Nat
  deriving DecidableEq, Repr

/-- A freshly created store. -/
def emptyDB : DB := ⟨[], [], 1, 1⟩

/-- The filesystem collaborator: paths mapped to bytes, most recent write
first. -/
abbrev Fs := List (String × String)

/-- `open(path, "wb").write(bytes)`. -/
def fsWrite (fs : Fs) (p bytes : String) : Fs := (p, bytes) :: fs

/-- Read a preserved file if it exists. -/
def fsRead (fs : Fs) (p : String) : Option String :=
  (fs.find? (fun q => q.1 == p)).map (fun q => q.2)

/-- An `UploadFile`: the underlying spooled stream carries a read position;
FastAPI hands the handler the file with the position rewound to 0. -/
structure UploadFile where
  filename : String
  content : String
  pos : Nat
  deriving DecidableEq, Repr

/-- `file.read()` (and `file.file.read()`, which share the stream): return
everything from the current position and leave the position at the end. -/
def fileRead (f : UploadFile) : String × UploadFile :=
  (String.mk (f.content.data.drop f.pos), { f with pos := f.content.data.length })

/-- `dict(zip(headers, row))` keeping insertion order (duplicate headers
were rejected before this point). -/
def pyZipDict (headers row : List String) : List (String × String) :=
  headers.zip row

/-- `INSERT INTO expense_rows (dataset_id, row_data) VALUES (%s, %s)` for one
data row. -/
def insertRow (db : DB) (dsid : Nat) (headers row : List String) : DB :=
  { db with
    expense_rows := db.expense_rows ++ [⟨db.next_row_id, dsid, pyZipDict headers row⟩]
    next_row_id := db.next_row_id + 1 }

/-- The row-insert loop inside the transaction.  `failAt` is the store's
failure oracle: the index of the statement at which the store raises
(`0` the dataset insert, `1..n` the row inserts, `n + 1` the commit). -/
def insertRowsF (dsid : Nat) (headers : List String) (failAt : Option Nat) :
    DB → Nat → List (List String) → Except Unit DB
  | db, _, [] => .ok db
  | db, k, r :: rs =>
    if failAt = some k then .error ()
    else insertRowsF dsid headers failAt (insertRow db dsid headers r) (k + 1) rs

/-- The body of the upload transaction: dataset insert, one insert per row,
commit.  A raise at any statement aborts with nothing committed; the
caller rolls back, so an error leaves the caller's store untouched. -/
def upload_txn (db : DB) (fname spath : String) (headers : List String)
    (rows : List (List String)) (failAt : Option Nat) : Except Unit (DB × Nat) :=
  if failAt = some 0 then .error ()
  else
    let dsid := db.next_dataset_id
    let db1 := { db with
      datasets := db.datasets ++ [⟨dsid, fname, rows.length, "admin", spath⟩]
      next_dataset_id := dsid + 1 }
    match insertRowsF dsid headers failAt db1 1 rows with
    | .error _ => .error ()
    | .ok db2 =>
      if failAt = some (rows.length + 1) then .error () else .ok (db2, dsid)

/-- The HTTP-visible failure of a handler. -/
inductive HttpError where
  | validation (e : CsvError)
  | filterBad (e : FilterError)
  | notFound (detail : String)
  | persistence
  deriving DecidableEq, Repr

/-- Status code each failure is reported with: validator failures and the
whitelist failure raise `HTTPException(400)`, missing data 404, a
transaction failure the handler's own 500, and an uncaught `ValueError`
reaches the app-wide unhandled-exception handler, also a 500. -/
def statusOf : HttpError → Nat
  | .validation _ => 400
  | .filterBad (.invalidOperator _) => 400
  | .filterBad .valueError => 500
  | .notFound _ => 404
  | .persistence => 500

/-- The JSON body of a successful upload. -/
structure UploadResult where
  dataset_id : Nat
  row_count : Nat
  file : String
  deriving DecidableEq, Repr

/-- Everything `upload_expense_csv` leaves behind: the stream, the uploads
directory, the store, and the response. -/
structure UploadOutcome where
  file : UploadFile
  fs : Fs
  db : DB
  resp : Except HttpError UploadResult
  deriving DecidableEq, Repr

/-- `upload_expense_csv` from `app/routers/expenses.py`.  The validator
consumes the shared stream through `file.file.read()`; the handler then
writes whatever `await file.read()` still returns to
`uploads/{timestamp}_{filename}` and runs the insert transaction,
rolling back (store unchanged) and answering 500 on a store failure.
`timestamp` stands for `datetime.now().strftime("%Y%m%d_%H%M%S")`. -/
def upload_expense_csv (f : UploadFile) (timestamp : String) (fs : Fs) (db : DB)
    (failAt : Option Nat) : UploadOutcome :=
  let r1 := fileRead f
  match validate_csv (some f.filename) r1.1 with
  | .error e => ⟨r1.2, fs, db, .error (.validation e)⟩
  | .ok (headers, rows) =>
    let r2 := fileRead r1.2
    let save_path := "uploads/" ++ timestamp ++ "_" ++ f.filename
    let fs2 := fsWrite fs save_path r2.1
    match upload_txn db f.filename save_path headers rows failAt with
    | .ok (db2, dsid) => ⟨r2.2, fs2, db2, .ok ⟨dsid, rows.length, f.filename⟩⟩
    | .error _ => ⟨r2.2, fs2, db, .error .persistence⟩

/-- `download_expense_csv`: look up the dataset, then serve the preserved
file under its stored `file_name`. -/
def download_expense_csv (fs : Fs) (db : DB) (dsid : Nat) :
    Except HttpError (String × String) :=
  match db.datasets.find? (fun d => d.id == dsid) with
  | none => .error (.notFound "Dataset not found")
  | some d =>
    match fsRead fs d.original_path with
    | none => .error (.notFound ("File not found: " ++ d.original_path))
    | some bytes => .ok (d.file_name, bytes)

/-! ## Filtered CSV export -/

/-- `row_data` value for a header, a missing key rendering as the empty
string. -/
def lookupField (r : List (String × String)) (h : String) : String :=
  match r.find? (fun p => p.1 == h) with
  | some p => p.2
  | none => ""

/-- One CSV output line (the writer's quoting is not exercised by any
claim). -/
def csvLine (fields : List String) : String := String.intercalate "," fields

/-- What `csv.DictWriter` emits for a non-empty result set: the header row
from the key order of the first row, then one line per row. -/
def csvBody (rows : List (List (String × String))) : String :=
  match rows with
  | [] => ""
  | r0 :: _ =>
    let hs := r0.map (fun p => p.1)
    String.intercalate "\r\n"
      (csvLine hs :: rows.map (fun r => csvLine (hs.map (lookupField r)))) ++ "\r\n"

/-- The store's evaluation of a SQL text with its bound parameters — the
external collaborator behind `cur.execute` / `fetchall`, supplied as an
oracle. -/
abbrev QueryOracle := String → List SqlParam → List (List (String × String))

/-- `download_filtered_csv` (single dataset): build the predicate, query
with `dataset_id` bound first, answer 404 on an empty result and the CSV
body otherwise. -/
def download_filtered_csv (q : QueryOracle) (dataset_id : Nat)
    (filter_col filter_val num_col num_op num_val
      date_col date_from date_to : Option (List String)) :
    Except HttpError String :=
  match build_filter_conditions filter_col filter_val num_col num_op num_val
      date_col date_from date_to true with
  | .error e => .error (.filterBad e)
  | .ok (wc, ps) =>
    let rows := q ("SELECT row_data FROM expense_rows WHERE dataset_id=%s "
        ++ wc ++ " ORDER BY id;") (SqlParam.nat dataset_id :: ps)
    if rows.isEmpty then .error (.notFound "No data found")
    else .ok (csvBody rows)

/-- `download_all_filtered_csv` (cross-dataset): the same pipeline without
the dataset clause. -/
def download_all_filtered_csv (q : QueryOracle)
    (filter_col filter_val num_col num_op num_val
      date_col date_from date_to : Option (List String)) :
    Except HttpError String :=
  match build_filter_conditions filter_col filter_val num_col num_op num_val
      date_col date_from date_to false with
  | .error e => .error (.filterBad e)
  | .ok (wc, ps) =>
    let rows := q ("SELECT row_data FROM expense_rows " ++ wc
        ++ " ORDER BY dataset_id, id;") ps
    if rows.isEmpty then .error (.notFound "該当データなし")
    else .ok (csvBody rows)

/-- The rows a committed upload adds: one per data row, ids consecutive from
`start`, each payload the header-zipped mapping. -/
def expectedRows (start dsid : Nat) (headers : List String) :
    List (List String) → List ExpenseRow
  | [] => []
  | r :: rs =>
    ⟨start, dsid, pyZipDict headers r⟩ :: expectedRows (start + 1) dsid headers rs

/-- The store a committed upload leaves behind: the dataset record carrying
`row_count = rows.length` together with all of its rows. -/
def fullInsert (db : DB) (fname spath : String) (headers : List String)
    (rows : List (List String)) : DB where
  datasets := db.datasets
    ++ [⟨db.next_dataset_id, fname, rows.length, "admin", spath⟩]
  expense_rows := db.expense_rows
    ++ expectedRows db.next_row_id db.next_dataset_id headers rows
  next_dataset_id := db.next_dataset_id + 1
  next_row_id := db.next_row_id + rows.length

/-! ## Invariants and concrete inputs used by the claims -/

/-- Every dataset's cached `row_count` equals the number of `expense_rows`
records referencing it. -/
def rowCountInv (db : DB) : Prop :=
  ∀ d ∈ db.datasets,
    d.row_count = db.expense_rows.countP (fun r => r.dataset_id == d.id)

/-- Well-formedness of the store: ids already handed out are below the
sequences' next values. -/
def dbWF (db : DB) : Prop :=
  (∀ d ∈ db.datasets, d.id < db.next_dataset_id)
    ∧ (∀ r ∈ db.expense_rows, r.dataset_id < db.next_dataset_id)

/-- A concrete decoded input one byte over the spec's 10 MiB bound. -/
def bigText : String := String.mk (List.replicate 10485761 'a')

/-- A concrete two-column upload used as a failing input. -/
def demoFile : UploadFile := ⟨"t.csv", "a,b\n1,2", 0⟩

/-! ## Helper lemmas -/

/-- The validator has no size branch: no input is ever rejected as
oversized. -/
theorem validateCsv_oversized_aux (fn : Option String) (t : String) :
    validate_csv fn t ≠ .error .oversizedInput := by
  unfold validate_csv
  repeat' split <;> simp_all

/-- The byte length of the oversized concrete input. -/
theorem utf8Len_bigText : utf8Len bigText = 10485761 := by
  show (List.map Char.utf8Size (List.replicate 10485761 'a')).sum = 10485761
  rw [List.map_replicate, show Char.utf8Size 'a' = 1 from by decide,
    List.sum_replicate, smul_eq_mul, mul_one]

/-- `firstMismatch` returns the enumeration index of the first record whose
field count differs from the header's, with all earlier records
matching. -/
theorem firstMismatch_spec (hlen : Nat) (rows : List (List String)) :
    ∀ start i, firstMismatch hlen start rows = some i →
      start ≤ i ∧ ∃ r, rows[i - start]? = some r ∧ r.length ≠ hlen ∧
        ∀ j r', j < i - start → rows[j]? = some r' → r'.length = hlen := by
  induction rows with
  | nil => intro start i h; simp [firstMismatch] at h
  | cons a as ih =>
    intro start i h
    unfold firstMismatch at h
    by_cases ha : a.length = hlen
    · rw [if_pos ha] at h
      obtain ⟨h1, r, h2, h3, h4⟩ := ih (start + 1) i h
      refine ⟨by omega, r, ?_, h3, ?_⟩
      · have hi : i - start = (i - (start + 1)) + 1 := by omega
        rw [hi]
        simpa using h2
      · intro j r' hj hg
        cases j with
        | zero =>
          simp at hg
          exact hg ▸ ha
        | succ j' =>
          have hj' : j' < i - (start + 1) := by omega
          exact h4 j' r' hj' (by simpa using hg)
    · rw [if_neg ha] at h
      injection h with h
      subst h
      refine ⟨le_refl _, a, by simp, ha, ?_⟩
      intro j r' hj
      omega

/-- `insertRowsF` either raises or appends exactly the expected rows. -/
theorem insertRowsF_spec (dsid : Nat) (headers : List String) (failAt : Option Nat)
    (rows : List (List String)) :
    ∀ db k, insertRowsF dsid headers failAt db k rows = .error ()
      ∨ insertRowsF dsid headers failAt db k rows
          = .ok { db with
              expense_rows := db.expense_rows ++ expectedRows db.next_row_id dsid headers rows
              next_row_id := db.next_row_id + rows.length } := by
  induction rows with
  | nil =>
    intro db k
    right
    simp [insertRowsF, expectedRows]
  | cons r rs ih =>
    intro db k
    unfold insertRowsF
    by_cases hf : failAt = some k
    · left
      rw [if_pos hf]
    · rw [if_neg hf]
      rcases ih (insertRow db dsid headers r) (k + 1) with he | hok
      · left
        exact he
      · right
        rw [hok]
        simp [insertRow, expectedRows, List.append_assoc]
        omega

/-- The transaction body is all-or-nothing. -/
theorem upload_txn_all_or_nothing (db : DB) (fname spath : String)
    (headers : List String) (rows : List (List String)) (failAt : Option Nat) :
    upload_txn db fname spath headers rows failAt = .error ()
      ∨ upload_txn db fname spath headers rows failAt
          = .ok (fullInsert db fname spath headers rows, db.next_dataset_id) := by
  unfold upload_txn
  dsimp only
  by_cases h0 : failAt = some 0
  · left
    rw [if_pos h0]
  · rw [if_neg h0]
    rcases insertRowsF_spec db.next_dataset_id headers failAt rows
      { db with
        datasets := db.datasets ++ [⟨db.next_dataset_id, fname, rows.length, "admin", spath⟩]
        next_dataset_id := db.next_dataset_id + 1 } 1 with he | hok
    · left
      simp only [he]
    · rw [hok]
      dsimp only
      by_cases hc : failAt = some (rows.length + 1)
      · left
        rw [if_pos hc]
      · right
        rw [if_neg hc]
        rfl

/-- The upload handler is atomic: a persistence failure answers 500 with the
store rolled back, a success commits the full insert, and the store is
never left in a partial state. -/
theorem upload_state_cases (f : UploadFile) (ts : String) (fs : Fs) (db : DB)
    (failAt : Option Nat) :
    statusOf HttpError.persistence = 500
      ∧ ((upload_expense_csv f ts fs db failAt).resp = .error .persistence →
          (upload_expense_csv f ts fs db failAt).db = db)
      ∧ (∀ u, (upload_expense_csv f ts fs db failAt).resp = .ok u →
          ∃ headers rows,
            validate_csv (some f.filename) (fileRead f).1 = .ok (headers, rows)
              ∧ u = ⟨db.next_dataset_id, rows.length, f.filename⟩
              ∧ (upload_expense_csv f ts fs db failAt).db
                  = fullInsert db f.filename ("uploads/" ++ ts ++ "_" ++ f.filename)
                      headers rows)
      ∧ ((upload_expense_csv f ts fs db failAt).db = db
          ∨ ∃ headers rows,
              validate_csv (some f.filename) (fileRead f).1 = .ok (headers, rows)
                ∧ (upload_expense_csv f ts fs db failAt).db
                    = fullInsert db f.filename ("uploads/" ++ ts ++ "_" ++ f.filename)
                        headers rows) := by
  unfold upload_expense_csv
  dsimp only
  rcases hv : validate_csv (some f.filename) (fileRead f).1 with e | ⟨headers, rows⟩
  · dsimp only
    exact ⟨rfl, by simp, by simp, Or.inl rfl⟩
  · dsimp only
    rcases upload_txn_all_or_nothing db f.filename
        ("uploads/" ++ ts ++ "_" ++ f.filename) headers rows failAt with he | hok
    · rw [he]
      dsimp only
      exact ⟨rfl, fun _ => rfl, by simp, Or.inl rfl⟩
    · rw [hok]
      dsimp only
      refine ⟨rfl, by simp, ?_, Or.inr ⟨headers, rows, rfl, rfl⟩⟩
      intro u hu
      injection hu with hu
      exact ⟨headers, rows, rfl, hu.symm, rfl⟩

/-- The rows a commit adds are as many as the data rows. -/
theorem expectedRows_length (dsid : Nat) (headers : List String)
    (rows : List (List String)) :
    ∀ s, (expectedRows s dsid headers rows).length = rows.length := by
  induction rows with
  | nil => intro s; rfl
  | cons r rs ih => intro s; simp [expectedRows, ih]

/-- Every row a commit adds references the new dataset. -/
theorem expectedRows_dsid (dsid : Nat) (headers : List String)
    (rows : List (List String)) :
    ∀ s r, r ∈ expectedRows s dsid headers rows → r.dataset_id = dsid := by
  induction rows with
  | nil => intro s r h; simp [expectedRows] at h
  | cons a as ih =>
    intro s r h
    simp only [expectedRows, List.mem_cons] at h
    rcases h with h | h
    · rw [h]
    · exact ih (s + 1) r h

/-- A committed upload preserves store well-formedness. -/
theorem fullInsert_wf (db : DB) (fname spath : String) (headers : List String)
    (rows : List (List String)) (hwf : dbWF db) :
    dbWF (fullInsert db fname spath headers rows) := by
  obtain ⟨h1, h2⟩ := hwf
  constructor
  · intro d hd
    simp only [fullInsert, List.mem_append, List.mem_singleton] at hd
    rcases hd with hd | hd
    · have := h1 d hd
      simp only [fullInsert]
      omega
    · rw [hd]
      simp [fullInsert]
  · intro r hr
    simp only [fullInsert, List.mem_append] at hr
    rcases hr with hr | hr
    · have := h2 r hr
      simp only [fullInsert]
      omega
    · have := expectedRows_dsid db.next_dataset_id headers rows db.next_row_id r hr
      simp [fullInsert, this]

/-- A committed upload establishes the row-count equality for the new
dataset and preserves it for every existing one. -/
theorem fullInsert_inv (db : DB) (fname spath : String) (headers : List String)
    (rows : List (List String)) (hwf : dbWF db) (hinv : rowCountInv db) :
    rowCountInv (fullInsert db fname spath headers rows) := by
  intro d hd
  simp only [fullInsert, List.mem_append, List.mem_singleton] at hd
  rcases hd with hd | hd
  · have hc := hinv d hd
    have hid : d.id < db.next_dataset_id := hwf.1 d hd
    show d.row_count = List.countP _ (_ ++ _)
    rw [List.countP_append]
    have hz : (expectedRows db.next_row_id db.next_dataset_id headers rows).countP
        (fun r => r.dataset_id == d.id) = 0 := by
      rw [List.countP_eq_zero]
      intro r hr
      have := expectedRows_dsid db.next_dataset_id headers rows db.next_row_id r hr
      simp [this]
      omega
    rw [hz]
    simpa using hc
  · rw [hd]
    show rows.length = List.countP _ (_ ++ _)
    rw [List.countP_append]
    have h0 : db.expense_rows.countP
        (fun r => r.dataset_id == db.next_dataset_id) = 0 := by
      rw [List.countP_eq_zero]
      intro r hr
      have := hwf.2 r hr
      simp
      omega
    have hall : (expectedRows db.next_row_id db.next_dataset_id headers rows).countP
        (fun r => r.dataset_id == db.next_dataset_id)
          = (expectedRows db.next_row_id db.next_dataset_id headers rows).length := by
      rw [List.countP_eq_length]
      intro r hr
      have := expectedRows_dsid db.next_dataset_id headers rows db.next_row_id r hr
      simp [this]
    rw [h0, hall, expectedRows_length]
    omega

/-- `stringGroup` only consumes the zipped prefix of its two lists. -/
theorem stringGroup_trunc (cs : List String) :
    ∀ vs, stringGroup cs vs
      = stringGroup (cs.take (min cs.length vs.length))
          (vs.take (min cs.length vs.length)) := by
  induction cs with
  | nil => intro vs; simp [stringGroup]
  | cons c cs ih =>
    intro vs
    cases vs with
    | nil => simp [stringGroup]
    | cons v vs =>
      simp only [List.length_cons, Nat.succ_min_succ, List.take_succ_cons]
      show stringGroup (c :: cs) (v :: vs)
        = stringGroup (c :: cs.take (min cs.length vs.length))
            (v :: vs.take (min cs.length vs.length))
      unfold stringGroup
      rw [← ih vs]

/-- `numericGroup` only consumes the zipped prefix of its three lists. -/
theorem numericGroup_trunc (cs : List String) :
    ∀ os vs, numericGroup cs os vs
      = numericGroup (cs.take (min cs.length (min os.length vs.length)))
          (os.take (min cs.length (min os.length vs.length)))
          (vs.take (min cs.length (min os.length vs.length))) := by
  induction cs with
  | nil => intro os vs; simp [numericGroup]
  | cons c cs ih =>
    intro os vs
    cases os with
    | nil => simp [numericGroup]
    | cons o os =>
      cases vs with
      | nil => simp [numericGroup]
      | cons v vs =>
        simp only [List.length_cons, Nat.succ_min_succ, List.take_succ_cons]
        unfold numericGroup
        rw [← ih os vs]

/-- `dateGroup` only consumes as many bounds as there are date columns. -/
theorem dateGroup_take (cs : List String) :
    ∀ fs ts, dateGroup cs fs ts
      = dateGroup cs (fs.take cs.length) (ts.take cs.length) := by
  induction cs with
  | nil => intro fs ts; simp [dateGroup]
  | cons c cs ih =>
    intro fs ts
    cases fs with
    | nil => simp [dateGroup]
    | cons f fs =>
      cases ts with
      | nil => simp [dateGroup]
      | cons t ts =>
        simp only [List.length_cons, List.take_succ_cons]
        unfold dateGroup
        rw [← ih fs ts]

/-- Padding commutes with truncation to the padding length. -/
theorem padNone_take (l : List String) (n : Nat) :
    (padNone l n).take n = padNone (l.take n) n := by
  unfold padNone
  by_cases h : n ≤ l.length
  · have h0 : n - l.length = 0 := by omega
    have h1 : (l.take n).length = n := by simp [h]
    rw [h0, h1]
    simp [List.take_append_of_le_length, List.map_take]
  · have hl : l.take n = l := List.take_of_length_le (by omega)
    rw [hl]
    apply List.take_of_length_le
    simp
    omega

/-- The guarded string group agrees with its zip-truncated form. -/
theorem stringGuard_trunc (fc fv : List String) :
    (if truthyL (some fc) && truthyL (some fv) then stringGroup fc fv
     else (([], []) : List String × List SqlParam))
      = (if truthyL (some (fc.take (min fc.length fv.length)))
            && truthyL (some (fv.take (min fc.length fv.length))) then
          stringGroup (fc.take (min fc.length fv.length))
            (fv.take (min fc.length fv.length))
        else ([], [])) := by
  cases fc with
  | nil => simp [truthyL]
  | cons c cs =>
    cases fv with
    | nil => simp [truthyL]
    | cons v vs =>
      simp only [truthyL, List.isEmpty_cons, List.length_cons, Nat.succ_min_succ,
        List.take_succ_cons, Bool.not_false, Bool.and_self, if_true]
      have h := stringGroup_trunc (c :: cs) (v :: vs)
      simpa [Nat.succ_min_succ] using h

/-- The guarded numeric group agrees with its zip-truncated form. -/
theorem numericGuard_trunc (nc nop nv : List String) :
    (if truthyL (some nc) && truthyL (some nop) && truthyL (some nv) then
        numericGroup nc nop nv
     else .ok ([], []))
      = (if truthyL (some (nc.take (min nc.length (min nop.length nv.length))))
            && truthyL (some (nop.take (min nc.length (min nop.length nv.length))))
            && truthyL (some (nv.take (min nc.length (min nop.length nv.length)))) then
          numericGroup (nc.take (min nc.length (min nop.length nv.length)))
            (nop.take (min nc.length (min nop.length nv.length)))
            (nv.take (min nc.length (min nop.length nv.length)))
        else .ok ([], [])) := by
  cases nc with
  | nil => simp [truthyL]
  | cons c cs =>
    cases nop with
    | nil => simp [truthyL]
    | cons o os =>
      cases nv with
      | nil => simp [truthyL]
      | cons v vs =>
        simp only [truthyL, List.isEmpty_cons, List.length_cons, Nat.succ_min_succ,
          List.take_succ_cons, Bool.not_false, Bool.and_self, if_true]
        have h := numericGroup_trunc (c :: cs) (o :: os) (v :: vs)
        simpa [Nat.succ_min_succ] using h

/-- The guarded date group agrees with its bound-truncated form. -/
theorem dateGuard_take (dc df dt : List String) :
    (if truthyL (some dc) then
        dateGroup dc (padNone df dc.length) (padNone dt dc.length)
     else (([], []) : List String × List SqlParam))
      = (if truthyL (some dc) then
          dateGroup dc (padNone (df.take dc.length) dc.length)
            (padNone (dt.take dc.length) dc.length)
        else ([], [])) := by
  cases h : truthyL (some dc)
  · simp
  · simp only [if_true]
    rw [dateGroup_take dc (padNone df dc.length) (padNone dt dc.length),
      padNone_take, padNone_take]

/-- The whitelist map factors through the operator enumeration. -/
theorem opsMap_eq (s : String) : opsMap s = (opsOf s).map cmpSym := by
  unfold opsMap opsOf
  split_ifs <;> rfl

/-- The string group's conditions render its shape. -/
theorem stringGroup_conds (cs : List String) :
    ∀ vs, (stringGroup cs vs).1 = (strShape cs vs).map strCond := by
  induction cs with
  | nil => intro vs; simp [stringGroup, strShape]
  | cons c cs ih =>
    intro vs
    cases vs with
    | nil => simp [stringGroup, strShape]
    | cons v vs =>
      by_cases h : orVals v = []
      · simp [stringGroup, strShape, h, ih]
      · simp [stringGroup, strShape, h, ih, List.length_eq_zero]

/-- Every OR-alternative count in a shape is positive. -/
theorem strShape_pos (cs : List String) :
    ∀ vs k, k ∈ strShape cs vs → 0 < k := by
  induction cs with
  | nil => intro vs k h; simp [strShape] at h
  | cons c cs ih =>
    intro vs k h
    cases vs with
    | nil => simp [strShape] at h
    | cons v vs =>
      by_cases hv : (orVals v).length = 0
      · rw [strShape, if_pos hv] at h
        exact ih vs k h
      · rw [strShape, if_neg hv] at h
        rcases List.mem_cons.1 h with rfl | h
        · omega
        · exact ih vs k h

/-- A successful numeric group's conditions render its shape. -/
theorem numericGroup_conds (cs : List String) :
    ∀ os vs rc rp, numericGroup cs os vs = .ok (rc, rp) →
      rc = (numShape cs os vs).map renderNumSel := by
  induction cs with
  | nil =>
    intro os vs rc rp h
    simp [numericGroup] at h
    simp [numShape, h.1]
  | cons c cs ih =>
    intro os vs rc rp h
    cases os with
    | nil =>
      simp [numericGroup] at h
      simp [numShape, h.1]
    | cons o os =>
      cases vs with
      | nil =>
        simp [numericGroup] at h
        simp [numShape, h.1]
      | cons v vs =>
        unfold numericGroup at h
        by_cases hb : pyLower o = "between"
        · rw [if_pos hb] at h
          rcases hbb : betweenBounds v with _ | ⟨lo, hi⟩
          · rw [hbb] at h
            exact absurd h (by simp)
          · rw [hbb] at h
            rcases hrec : numericGroup cs os vs with e | ⟨rc2, rp2⟩
            · rw [hrec] at h
              exact absurd h (by simp)
            · rw [hrec] at h
              simp only [Except.ok.injEq, Prod.mk.injEq] at h
              rw [← h.1, numShape, if_pos hb]
              simp [ih os vs rc2 rp2 hrec, renderNumSel]
        · rw [if_neg hb] at h
          rcases hop : opsMap (pyLower o) with _ | sym
          · rw [hop] at h
            exact absurd h (by simp)
          · rw [hop] at h
            rcases hfl : pyFloat? v with _ | q
            · rw [hfl] at h
              exact absurd h (by simp)
            · rw [hfl] at h
              rcases hrec : numericGroup cs os vs with e | ⟨rc2, rp2⟩
              · rw [hrec] at h
                exact absurd h (by simp)
              · rw [hrec] at h
                simp only [Except.ok.injEq, Prod.mk.injEq] at h
                rw [opsMap_eq] at hop
                rcases Option.map_eq_some'.1 hop with ⟨op2, hop2, hsym⟩
                rw [← h.1, numShape, if_neg hb, hop2]
                simp [ih os vs rc2 rp2 hrec, renderNumSel, hsym]

/-- The date group's conditions render its shape. -/
theorem dateGroup_conds (cs : List String) :
    ∀ fs ts, (dateGroup cs fs ts).1 = (dateShape cs fs ts).map renderDateSel := by
  induction cs with
  | nil => intro fs ts; simp [dateGroup, dateShape]
  | cons c cs ih =>
    intro fs ts
    cases fs with
    | nil => simp [dateGroup, dateShape]
    | cons f fs =>
      cases ts with
      | nil => simp [dateGroup, dateShape]
      | cons t ts =>
        cases hf : tv f <;> cases ht : tv t <;>
          simp [dateGroup, dateShape, hf, ht, ih fs ts, renderDateSel]

/-- Everything a shape renders is a whitelisted template fragment. -/
theorem renderConds_template (sh : FilterShape)
    (hpos : ∀ k ∈ sh.strCounts, 0 < k) :
    ∀ c ∈ renderConds sh, TemplateFrag c := by
  intro c hc
  simp only [renderConds, List.mem_append, List.mem_map] at hc
  rcases hc with (⟨k, hk, rfl⟩ | ⟨sel, hsel, rfl⟩) | ⟨sel, hsel, rfl⟩
  · exact Or.inl ⟨k, hpos k hk, rfl⟩
  · cases sel with
    | between => exact Or.inr (Or.inl rfl)
    | cmp o => exact Or.inr (Or.inr (Or.inl ⟨o, rfl⟩))
  · cases sel with
    | both => exact Or.inr (Or.inr (Or.inr (Or.inl rfl)))
    | fromOnly => exact Or.inr (Or.inr (Or.inr (Or.inr (Or.inl rfl))))
    | toOnly => exact Or.inr (Or.inr (Or.inr (Or.inr (Or.inr rfl))))

/-- Shapes computed from inputs carry positive OR counts. -/
theorem shapeOf_strCounts_pos
    (fc fv nc nop nv dc df dt : Option (List String)) (b : Bool) :
    ∀ k ∈ (shapeOf fc fv nc nop nv dc df dt b).strCounts, 0 < k := by
  intro k hk
  unfold shapeOf at hk
  dsimp only at hk
  by_cases hg : truthyL fc && truthyL fv
  · rw [if_pos hg] at hk
    exact strShape_pos (getL fc) (getL fv) k hk
  · rw [if_neg hg] at hk
    simp at hk

/-- A non-empty result set always yields a non-empty CSV body. -/
theorem csvBody_pos (rows : List (List (String × String))) (h : rows ≠ []) :
    0 < (csvBody rows).length := by
  cases rows with
  | nil => exact absurd rfl h
  | cons r rs =>
    unfold csvBody
    dsimp only
    rw [String.length_append]
    have h2 : ("\r\n" : String).length = 2 := rfl
    omega

/-! ## The claims -/

/-- C1: evaluating the upload pipeline on a concrete non-empty CSV shows the
bug the claim denies: the validator consumes the shared stream, so the
handler writes the exhausted stream's remainder — the empty byte string —
to the dataset's `original_path`, and a subsequent original-file
re-download of that dataset id serves those empty bytes instead of the
uploaded content `"a,b\n1,2"`. -/
theorem upload_saves_empty_file :
    (upload_expense_csv demoFile "20251012_000000" [] emptyDB none).resp
        = .ok ⟨1, 1, "t.csv"⟩
      ∧ (upload_expense_csv demoFile "20251012_000000" [] emptyDB none).fs
          = [("uploads/20251012_000000_t.csv", "")]
      ∧ download_expense_csv
          (upload_expense_csv demoFile "20251012_000000" [] emptyDB none).fs
          (upload_expense_csv demoFile "20251012_000000" [] emptyDB none).db 1
          = .ok ("t.csv", "")
      ∧ demoFile.content = "a,b\n1,2" :=
  ⟨by decide, by decide, by decide, rfl⟩

/-- C2: the upload's dataset insert and bulk row inserts are atomic: a
persistence failure during the transaction answers 500 with the store
rolled back to its prior state, a success commits the dataset together
with all of its rows, and the store is never left partially updated. -/
theorem upload_atomic (f : UploadFile) (ts : String) (fs : Fs) (db : DB)
    (failAt : Option Nat) :
    statusOf HttpError.persistence = 500
      ∧ ((upload_expense_csv f ts fs db failAt).resp = .error .persistence →
          (upload_expense_csv f ts fs db failAt).db = db)
      ∧ (∀ u, (upload_expense_csv f ts fs db failAt).resp = .ok u →
          ∃ headers rows,
            validate_csv (some f.filename) (fileRead f).1 = .ok (headers, rows)
              ∧ u = ⟨db.next_dataset_id, rows.length, f.filename⟩
              ∧ (upload_expense_csv f ts fs db failAt).db
                  = fullInsert db f.filename ("uploads/" ++ ts ++ "_" ++ f.filename)
                      headers rows)
      ∧ ((upload_expense_csv f ts fs db failAt).db = db
          ∨ ∃ headers rows,
              validate_csv (some f.filename) (fileRead f).1 = .ok (headers, rows)
                ∧ (upload_expense_csv f ts fs db failAt).db
                    = fullInsert db f.filename ("uploads/" ++ ts ++ "_" ++ f.filename)
                        headers rows) :=
  upload_state_cases f ts fs db failAt

/-- C2 witness: with the store failing at the first row insert, the concrete
upload answers a persistence error and the store is rolled back. -/
theorem upload_atomic_witness :
    (upload_expense_csv demoFile "ts" [] emptyDB (some 1)).db = emptyDB :=
  (upload_atomic demoFile "ts" [] emptyDB (some 1)).2.1 (by decide)

/-- C3: every upload preserves the invariant that each dataset's stored
`row_count` equals the number of `expense_rows` records referencing it
(together with well-formedness of the id sequences); the new dataset is
created already satisfying it, and the service's remaining operations
read the store without modifying it. -/
theorem upload_preserves_rowCountInv (f : UploadFile) (ts : String) (fs : Fs)
    (db : DB) (failAt : Option Nat) (hwf : dbWF db) (hinv : rowCountInv db) :
    rowCountInv (upload_expense_csv f ts fs db failAt).db
      ∧ dbWF (upload_expense_csv f ts fs db failAt).db := by
  rcases (upload_state_cases f ts fs db failAt).2.2.2 with hdb | ⟨headers, rows, hv, hdb⟩
  · rw [hdb]
    exact ⟨hinv, hwf⟩
  · rw [hdb]
    exact ⟨fullInsert_inv _ _ _ _ _ hwf hinv, fullInsert_wf _ _ _ _ _ hwf⟩

/-- C3 witness: the invariant holds after the concrete upload into the fresh
store. -/
theorem upload_preserves_rowCountInv_witness :
    rowCountInv (upload_expense_csv demoFile "ts" [] emptyDB none).db
      ∧ dbWF (upload_expense_csv demoFile "ts" [] emptyDB none).db :=
  upload_preserves_rowCountInv demoFile "ts" [] emptyDB none
    (by simp [dbWF, emptyDB]) (by simp [rowCountInv, emptyDB])

/-- C4 (amended): the validator imposes no size limit at all — no input is
ever rejected as oversized; an input over 10 MiB proceeds to the other
checks like any other. -/
theorem validate_csv_no_size_limit (fn : Option String) (t : String) :
    validate_csv fn t ≠ .error .oversizedInput :=
  validateCsv_oversized_aux fn t

/-- C4 witness: the behaviour at the concrete oversized input. -/
theorem validate_csv_no_size_limit_witness :
    validate_csv (some "big.csv") bigText ≠ .error .oversizedInput :=
  validate_csv_no_size_limit (some "big.csv") bigText

/-- C4 counterexample: a concrete input whose byte length exceeds 10 MiB and
which the validator does not fail with `OversizedInput`. -/
theorem validate_csv_oversized_cex :
    10 * 1024 * 1024 < utf8Len bigText
      ∧ validate_csv (some "big.csv") bigText ≠ .error .oversizedInput := by
  refine ⟨?_, validateCsv_oversized_aux _ _⟩
  rw [utf8Len_bigText]
  norm_num

/-- C5 (amended): the validator fails with `InvalidExtension` exactly when
the input is non-empty, a filename is supplied, and that filename does not
end in `.csv` compared case-SENSITIVELY — so a filename ending in `.CSV`
is rejected, not accepted. -/
theorem validate_csv_extension_iff (fn : Option String) (t : String) :
    validate_csv fn t = .error .invalidExtension ↔
      t.data.isEmpty = false ∧ ∃ n, fn = some n ∧ pyEndsWith ".csv" n = false := by
  unfold validate_csv
  repeat' split <;> simp_all

/-- C5 witness: a concrete upper-case extension is rejected. -/
theorem validate_csv_extension_iff_witness :
    validate_csv (some "A.CSV") "a,b\nx,y" = .error .invalidExtension :=
  (validate_csv_extension_iff (some "A.CSV") "a,b\nx,y").mpr
    ⟨by decide, "A.CSV", rfl, by decide⟩

/-- C5 counterexample: `DATA.CSV` ends in `.csv` case-insensitively, yet the
validator rejects it with `InvalidExtension`, refuting the claimed
case-insensitive comparison. -/
theorem validate_csv_extension_cex :
    validate_csv (some "DATA.CSV") "a,b\nx,y" = .error .invalidExtension
      ∧ pyEndsWith ".csv" (pyLower "DATA.CSV") = true :=
  ⟨by decide, by decide⟩

/-- C6 (amended): when the validator reports `ColumnCountMismatch i`, `i` is
the 1-based file line number of the offending record counting the header
as line 1 — the record at 0-based data position `i - 2` has a field count
differing from the header's while every earlier data record matches — so
the first data row is reported as 2, not 1. -/
theorem validate_csv_mismatch_line (fn : Option String) (t : String) (i : Nat)
    (h : validate_csv fn t = .error (.columnCountMismatch i)) :
    ∃ headers data_rows, csvRecords t = headers :: data_rows ∧ 2 ≤ i ∧
      ∃ r, data_rows[i - 2]? = some r ∧ r.length ≠ headers.length ∧
        ∀ j r', j < i - 2 → data_rows[j]? = some r' → r'.length = headers.length := by
  unfold validate_csv at h
  repeat' split at h <;> try simp_all
  rename_i hdrs drs hne2 hrec hdup fmres ii hfm
  subst h
  obtain ⟨h2, r, hr, hrl, hall⟩ := firstMismatch_spec hdrs.length drs 2 ii hfm
  exact ⟨hdrs, drs, ⟨rfl, rfl⟩, h2, r, hr, hrl, hall⟩

/-- C6 witness: the characterization applied to a concrete mismatching
input. -/
theorem validate_csv_mismatch_line_witness :
    ∃ headers data_rows, csvRecords "a,b\nx" = headers :: data_rows ∧ 2 ≤ 2 ∧
      ∃ r, data_rows[2 - 2]? = some r ∧ r.length ≠ headers.length ∧
        ∀ j r', j < 2 - 2 → data_rows[j]? = some r' → r'.length = headers.length :=
  validate_csv_mismatch_line (some "t.csv") "a,b\nx" 2 (by decide)

/-- C6 counterexample: the first data row after the header, when it
mismatches, is reported with index 2 rather than the claimed 1. -/
theorem validate_csv_mismatch_cex :
    validate_csv (some "t.csv") "a,b\nx" = .error (.columnCountMismatch 2) := by
  decide

/-- C7: the builder treats length-mismatched group lists leniently — its
result is unchanged when each group's lists are truncated to their zipped
common prefix (and the date bound lists to the date column count), so
trailing entries of a longer list produce no clause and cause no
failure. -/
theorem build_filter_zip_leniency
    (fc fv nc nop nv dc df dt : List String) (b : Bool) :
    build_filter_conditions (some fc) (some fv) (some nc) (some nop) (some nv)
        (some dc) (some df) (some dt) b
      = build_filter_conditions
          (some (fc.take (min fc.length fv.length)))
          (some (fv.take (min fc.length fv.length)))
          (some (nc.take (min nc.length (min nop.length nv.length))))
          (some (nop.take (min nc.length (min nop.length nv.length))))
          (some (nv.take (min nc.length (min nop.length nv.length))))
          (some dc) (some (df.take dc.length)) (some (dt.take dc.length)) b := by
  unfold build_filter_conditions
  dsimp only [getL, Option.getD]
  rw [← stringGuard_trunc fc fv, ← numericGuard_trunc nc nop nv]
  simp only [dateGuard_take dc df dt]

/-- C8: whenever the builder succeeds, the returned WHERE-clause text equals
the rendering of the input's value-free shape — a structure of counts and
enumerated selections that cannot carry user-supplied text — and every
conjunct of that rendering belongs to the fixed template family with the
comparison operator drawn from the whitelist; hence the clause text never
embeds a user-supplied column name, filter value, numeric value or date
bound, all of which travel only in the parameter list. -/
theorem build_filter_injection_safe
    (fc fv nc nop nv dc df dt : Option (List String)) (b : Bool)
    (wc : String) (ps : List SqlParam)
    (h : build_filter_conditions fc fv nc nop nv dc df dt b = .ok (wc, ps)) :
    wc = renderShape (shapeOf fc fv nc nop nv dc df dt b)
      ∧ ∀ c ∈ renderConds (shapeOf fc fv nc nop nv dc df dt b), TemplateFrag c := by
  refine ⟨?_, renderConds_template _ (shapeOf_strCounts_pos fc fv nc nop nv dc df dt b)⟩
  unfold build_filter_conditions at h
  rcases hng : (if truthyL nc && truthyL nop && truthyL nv then
      numericGroup (getL nc) (getL nop) (getL nv)
    else .ok ([], [])) with e | ng
  · rw [hng] at h
    exact absurd h (by simp)
  · rw [hng] at h
    dsimp only at h
    simp only [Except.ok.injEq, Prod.mk.injEq] at h
    rw [← h.1]
    have hsg : (if truthyL fc && truthyL fv then
        stringGroup (getL fc) (getL fv) else ([], [])).1
          = ((shapeOf fc fv nc nop nv dc df dt b).strCounts).map strCond := by
      unfold shapeOf
      dsimp only
      by_cases hg : truthyL fc && truthyL fv
      · rw [if_pos hg, if_pos hg]
        exact stringGroup_conds (getL fc) (getL fv)
      · rw [if_neg hg, if_neg hg]
        rfl
    have hngc : ng.1
        = ((shapeOf fc fv nc nop nv dc df dt b).numSels).map renderNumSel := by
      unfold shapeOf
      dsimp only
      by_cases hg : truthyL nc && truthyL nop && truthyL nv
      · rw [if_pos hg] at hng
        rw [if_pos hg]
        exact numericGroup_conds (getL nc) (getL nop) (getL nv) ng.1 ng.2 (by
          rw [hng])
      · rw [if_neg hg] at hng
        rw [if_neg hg]
        injection hng with hng
        rw [← hng]
        rfl
    have hdg : (if truthyL dc then
        dateGroup (getL dc) (padNone (getL df) (getL dc).length)
          (padNone (getL dt) (getL dc).length) else ([], [])).1
          = ((shapeOf fc fv nc nop nv dc df dt b).dateSels).map renderDateSel := by
      unfold shapeOf
      dsimp only
      by_cases hg : truthyL dc
      · rw [if_pos hg, if_pos hg]
        exact dateGroup_conds (getL dc) _ _
      · rw [if_neg hg, if_neg hg]
        rfl
    unfold renderShape renderConds
    dsimp only
    rw [← hsg, ← hngc, ← hdg]
    rfl

/-- C8 witness: the factoring applied to a concrete successful build. -/
theorem build_filter_injection_safe_witness :
    "WHERE (row_data ->> %s ILIKE %s OR row_data ->> %s ILIKE %s)"
        = renderShape (shapeOf (some ["c"]) (some ["a,b"]) none none none
            none none none false)
      ∧ ∀ c ∈ renderConds (shapeOf (some ["c"]) (some ["a,b"]) none none none
          none none none false), TemplateFrag c :=
  build_filter_injection_safe (some ["c"]) (some ["a,b"]) none none none
    none none none false
    "WHERE (row_data ->> %s ILIKE %s OR row_data ->> %s ILIKE %s)"
    [.str "c", .str "%a%", .str "c", .str "%b%"] (by decide)

/-- C9: both filtered CSV exports fail with a 404 not-found error whenever
the filtered result set is empty, and any successful response carries a
non-empty CSV body — an empty CSV file is never returned. -/
theorem filtered_export_empty_is_404 (q : QueryOracle) (dsid : Nat)
    (fc fv nc nop nv dc df dt : Option (List String)) :
    statusOf (HttpError.notFound "No data found") = 404
      ∧ statusOf (HttpError.notFound "該当データなし") = 404
      ∧ (∀ wc ps,
          build_filter_conditions fc fv nc nop nv dc df dt true = .ok (wc, ps) →
          q ("SELECT row_data FROM expense_rows WHERE dataset_id=%s " ++ wc
              ++ " ORDER BY id;") (SqlParam.nat dsid :: ps) = [] →
          download_filtered_csv q dsid fc fv nc nop nv dc df dt
            = .error (.notFound "No data found"))
      ∧ (∀ body, download_filtered_csv q dsid fc fv nc nop nv dc df dt = .ok body →
          0 < body.length)
      ∧ (∀ wc ps,
          build_filter_conditions fc fv nc nop nv dc df dt false = .ok (wc, ps) →
          q ("SELECT row_data FROM expense_rows " ++ wc
              ++ " ORDER BY dataset_id, id;") ps = [] →
          download_all_filtered_csv q fc fv nc nop nv dc df dt
            = .error (.notFound "該当データなし"))
      ∧ (∀ body, download_all_filtered_csv q fc fv nc nop nv dc df dt = .ok body →
          0 < body.length) := by
  refine ⟨rfl, rfl, ?_, ?_, ?_, ?_⟩
  · intro wc ps hb hq
    unfold download_filtered_csv
    rw [hb]
    dsimp only
    rw [hq]
    rfl
  · intro body h
    unfold download_filtered_csv at h
    rcases hb : build_filter_conditions fc fv nc nop nv dc df dt true with e | ⟨wc, ps⟩
    · rw [hb] at h
      exact absurd h (by simp)
    · rw [hb] at h
      dsimp only at h
      rcases hq : q ("SELECT row_data FROM expense_rows WHERE dataset_id=%s " ++ wc
          ++ " ORDER BY id;") (SqlParam.nat dsid :: ps) with _ | ⟨r, rs⟩
      · rw [hq] at h
        exact absurd h (by simp)
      · rw [hq] at h
        simp only [List.isEmpty_cons, Bool.false_eq_true, if_false, Except.ok.injEq] at h
        rw [← h]
        exact csvBody_pos _ (by simp)
  · intro wc ps hb hq
    unfold download_all_filtered_csv
    rw [hb]
    dsimp only
    rw [hq]
    rfl
  · intro body h
    unfold download_all_filtered_csv at h
    rcases hb : build_filter_conditions fc fv nc nop nv dc df dt false with e | ⟨wc, ps⟩
    · rw [hb] at h
      exact absurd h (by simp)
    · rw [hb] at h
      dsimp only at h
      rcases hq : q ("SELECT row_data FROM expense_rows " ++ wc
          ++ " ORDER BY dataset_id, id;") ps with _ | ⟨r, rs⟩
      · rw [hq] at h
        exact absurd h (by simp)
      · rw [hq] at h
        simp only [List.isEmpty_cons, Bool.false_eq_true, if_false, Except.ok.injEq] at h
        rw [← h]
        exact csvBody_pos _ (by simp)

/-- C9 witness: a query returning no rows makes the single-dataset export
answer the not-found error. -/
theorem filtered_export_empty_is_404_witness :
    download_filtered_csv (fun _ _ => []) 1 none none none none none none none none
      = .error (.notFound "No data found") :=
  (filtered_export_empty_is_404 (fun _ _ => []) 1
    none none none none none none none none).2.2.1 "" [] (by decide) rfl

/-- C10: a numeric filter group whose operator is `between` but whose value
is not exactly two decimal numerals makes the builder raise an uncaught
`ValueError` (from `float()` or tuple unpacking) rather than the 400-class
`InvalidOperator` validation error; the uncaught exception surfaces as a
generic 500. -/
theorem between_malformed_value_uncaught :
    build_filter_conditions none none (some ["amount"]) (some ["between"])
        (some ["100"]) none none none false = .error .valueError
      ∧ build_filter_conditions none none (some ["amount"]) (some ["between"])
          (some ["1,2,3"]) none none none false = .error .valueError
      ∧ build_filter_conditions none none (some ["amount"]) (some ["between"])
          (some ["abc,def"]) none none none false = .error .valueError
      ∧ statusOf (.filterBad .valueError) = 500
      ∧ statusOf (.filterBad (.invalidOperator "between")) = 400 :=
  ⟨by decide, by decide, by decide, rfl, rfl⟩

end ExpenseApp
